import Mathlib

/-!
Verification of the ResearchAssistant orchestration core.

This file gives a shallow embedding, in Lean 4, of the control and
bookkeeping logic of the ResearchAssistant repository:

* `ContextGuardAgent` (src/research_assistant/core/contextguard.py):
  token accounting, status bands, alerts, dry-run impact estimation and
  context reconstruction;
* `AnalystAgent` (src/research_assistant/agents/analyst.py): the heuristic
  scoring engine;
* `ReviewerAgent` (src/research_assistant/agents/reviewer.py): the
  validation engine;
* `LearnerAgent` (src/research_assistant/agents/learner.py): the pattern
  store;
* `WorkflowInvoker` (src/research_assistant/workflows/invoker.py): the
  bounded reasoning and validation loops.

Modelling conventions:
* Python `str` is modelled as `List Char` (`Str`); `.lower()`, `.strip()`,
  whitespace `split()` and the two `re.findall` patterns used by the code
  are modelled over ASCII, which is the alphabet they are exercised on.
* Python `float` is modelled as `ℚ`; `round(x, 1)` is modelled as rounding
  `10 * x` to the nearest integer.
* Python `int` is modelled as `ℤ` (token counters) or `ℕ` (loop indices).
* Mutable objects are modelled by explicit state records; a method that
  mutates `self` becomes a function returning `result × state`.
* Wall-clock timestamps and log/message formatting of floating point
  percentages are not modelled; every other dataclass field is.
-/

namespace RA

/-- Python strings are modelled as lists of characters. -/
abbrev Str := List Char

/-- Conversion from a Lean string literal to the `Str` model. -/
def lit (s : String) : Str := s.toList

/-- Whitespace characters recognised by Python `str.split()`/`str.strip()`
(ASCII fragment). -/
def isSpaceChar (c : Char) : Bool :=
  c = ' ' || c = '\t' || c = '\n' || c = '\r' || c = '\x0b' || c = '\x0c'

/-- Python `needle in haystack` substring test (`in` on `str`). -/
def containsSub (needle : Str) : Str → Bool
  | [] => needle.isEmpty
  | c :: rest => needle.isPrefixOf (c :: rest) || containsSub needle rest

/-- Python `text.lower()` (ASCII fragment). -/
def toLowerStr (s : Str) : Str := s.map Char.toLower

/-- Helper for `splitWs`: accumulates the current word (reversed). -/
def splitWsGo : Str → Str → List Str
  | acc, [] => if acc = [] then [] else [acc.reverse]
  | acc, c :: rest =>
    if isSpaceChar c then
      if acc = [] then splitWsGo [] rest else acc.reverse :: splitWsGo [] rest
    else splitWsGo (c :: acc) rest

/-- Python `str.split()` with no separator: splits on whitespace runs and
drops empty fields. -/
def splitWs (s : Str) : List Str := splitWsGo [] s

/-- Python `str.split(sep)` for a one-character separator (keeps empty
fields). -/
def splitOnChar (sep : Char) : Str → List Str
  | [] => [[]]
  | c :: rest =>
    if c = sep then [] :: splitOnChar sep rest
    else
      match splitOnChar sep rest with
      | [] => [[c]]
      | g :: gs => (c :: g) :: gs

/-- Fuel-driven worker for `splitOnSub`; with fuel at least the length of
the string it matches Python `str.split(sep)` for non-empty `sep`. -/
def splitOnSubGo (sep : Str) : ℕ → Str → List Str
  | _, [] => [[]]
  | 0, s => [s]
  | fuel + 1, c :: rest =>
    if sep.isPrefixOf (c :: rest) then
      [] :: splitOnSubGo sep fuel ((c :: rest).drop sep.length)
    else
      match splitOnSubGo sep fuel rest with
      | [] => [[c]]
      | g :: gs => (c :: g) :: gs

/-- Python `str.split(sep)` for a non-empty separator string. -/
def splitOnSub (sep s : Str) : List Str := splitOnSubGo sep s.length s

/-- Fuel-driven worker for `countSub`. -/
def countSubGo (sep : Str) : ℕ → Str → ℕ
  | _, [] => 0
  | 0, _ => 0
  | fuel + 1, c :: rest =>
    if sep.isPrefixOf (c :: rest) then
      1 + countSubGo sep fuel ((c :: rest).drop sep.length)
    else countSubGo sep fuel rest

/-- Python `str.count(sep)`: non-overlapping occurrence count, for a
non-empty `sep`. -/
def countSub (sep s : Str) : ℕ := countSubGo sep s.length s

/-- Python `str.strip()` with no arguments: removes whitespace from both
ends. -/
def stripWs (s : Str) : Str :=
  ((s.dropWhile isSpaceChar).reverse.dropWhile isSpaceChar).reverse

/-- Python `str.lstrip(chars)`: removes characters of the set from the
front. -/
def lstripSet (cs : List Char) (s : Str) : Str :=
  s.dropWhile (fun c => cs.contains c)

/-- Python `str.strip(chars)`: removes characters of the set from both
ends. -/
def stripSet (cs : List Char) (s : Str) : Str :=
  ((s.dropWhile fun c => cs.contains c).reverse.dropWhile
    fun c => cs.contains c).reverse

/-- Python `list(dict.fromkeys(xs))`: deduplication keeping the first
occurrence of each element, in order. -/
def dedupFirstGo {α : Type} [DecidableEq α] : List α → List α → List α
  | _, [] => []
  | seen, a :: rest =>
    if a ∈ seen then dedupFirstGo seen rest
    else a :: dedupFirstGo (a :: seen) rest

/-- Deduplication keeping first occurrences (Python `dict.fromkeys`). -/
def dedupFirst {α : Type} [DecidableEq α] (l : List α) : List α :=
  dedupFirstGo [] l

/-- Python `round(x, 1)` modelled on `ℚ`: round `10 * x` to the nearest
integer and divide by 10. -/
def round1 (q : ℚ) : ℚ := ((round (q * 10) : ℤ) : ℚ) / 10

end RA

namespace RA.Guard

/-- Token usage status levels (`TokenStatus` in contextguard.py). -/
inductive TokenStatus
  | green
  | yellow
  | red
  | critical
deriving DecidableEq, Repr

/-- Token usage statistics (`TokenStats` dataclass); the wall-clock
timestamp field is not modelled. -/
structure TokenStats where
  agent_id : Str
  operation : Str
  tokens_used : ℤ
  cumulative_tokens : ℤ
  max_tokens : ℤ
  percentage : ℚ
  status : TokenStatus
deriving DecidableEq, Repr

/-- Threshold-breach alert (`Alert` dataclass); the timestamp and the
`message` field (an f-string rendering of the percentage, used only for
logging) are not modelled. -/
structure Alert where
  agent_id : Str
  current_percentage : ℚ
  threshold_percentage : ℚ
  severity : Str
  recommended_action : Str
deriving DecidableEq, Repr

/-- Constructor-time configuration of `ContextGuardAgent`. -/
structure GuardConfig where
  max_tokens : ℤ
  threshold_percentage : ℚ
  warning_percentage : ℚ
  reconstruction_target : ℚ
deriving DecidableEq, Repr

/-- Class constant `CRITICAL_PERCENTAGE = 0.85`; `current_status` always
reads the class constant, not an instance field. -/
def CRITICAL_PERCENTAGE : ℚ := 0.85

/-- Default constructor arguments of `ContextGuardAgent.__init__`. -/
def defaultConfig : GuardConfig :=
  { max_tokens := 10000
    threshold_percentage := 0.70
    warning_percentage := 0.60
    reconstruction_target := 0.30 }

/-- Mutable state of a `ContextGuardAgent` instance.  `delivered_alerts`
records the alerts handed to `_trigger_alert` (delivered to every
registered callback); `context_snapshots` keeps `(content, token_count)`
pairs. -/
structure GuardState where
  cumulative_tokens : ℤ
  agent_tokens : List (Str × ℤ)
  history : List TokenStats
  alerts : List Alert
  delivered_alerts : List Alert
  context_snapshots : List (Str × ℤ)
deriving DecidableEq, Repr

/-- Fresh state as set up by `ContextGuardAgent.__init__`. -/
def initialState : GuardState :=
  { cumulative_tokens := 0
    agent_tokens := []
    history := []
    alerts := []
    delivered_alerts := []
    context_snapshots := [] }

/-- Property `current_percentage`: cumulative tokens over the budget. -/
def current_percentage (cfg : GuardConfig) (st : GuardState) : ℚ :=
  (st.cumulative_tokens : ℚ) / (cfg.max_tokens : ℚ)

/-- Property `current_status`: classify the current percentage into a
band. -/
def current_status (cfg : GuardConfig) (st : GuardState) : TokenStatus :=
  let pct := current_percentage cfg st
  if pct ≥ CRITICAL_PERCENTAGE then TokenStatus.critical
  else if pct ≥ cfg.threshold_percentage then TokenStatus.red
  else if pct ≥ cfg.warning_percentage then TokenStatus.yellow
  else TokenStatus.green

/-- Per-agent token bookkeeping inside `monitor_tokens`: initialise the
entry to 0 if absent, then add `tokens_used` (dict insertion order). -/
def bumpAgent : List (Str × ℤ) → Str → ℤ → List (Str × ℤ)
  | [], k, t => [(k, t)]
  | (k0, v0) :: rest, k, t =>
    if k0 = k then (k0, v0 + t) :: rest else (k0, v0) :: bumpAgent rest k t

/-- Method `_create_alert`: builds the alert (the logging `message` string
is not modelled). -/
def create_alert (cfg : GuardConfig) (agent_id : Str) (percentage : ℚ)
    (status : TokenStatus) : Alert :=
  let severity : Str :=
    if status = TokenStatus.critical then lit "CRITICAL" else lit "WARNING"
  let recommended_action : Str :=
    if status = TokenStatus.critical then lit "IMMEDIATE_RECONSTRUCTION"
    else lit "RECONSTRUCT_CONTEXT"
  { agent_id := agent_id
    current_percentage := percentage
    threshold_percentage := cfg.threshold_percentage
    severity := severity
    recommended_action := recommended_action }

/-- Method `monitor_tokens`: update the cumulative counter and per-agent
map, append the stats record to the history, and when the resulting status
is RED or CRITICAL create an alert (`_create_alert`, appended to
`_alerts`) and deliver it to the callbacks (`_trigger_alert`, recorded in
`delivered_alerts`). -/
def monitor_tokens (cfg : GuardConfig) (st : GuardState) (agent_id : Str)
    (operation : Str) (tokens_used : ℤ) : TokenStats × GuardState :=
  let stA : GuardState :=
    { st with
      cumulative_tokens := st.cumulative_tokens + tokens_used
      agent_tokens := bumpAgent st.agent_tokens agent_id tokens_used }
  let percentage := current_percentage cfg stA
  let status := current_status cfg stA
  let stats : TokenStats :=
    { agent_id := agent_id
      operation := operation
      tokens_used := tokens_used
      cumulative_tokens := stA.cumulative_tokens
      max_tokens := cfg.max_tokens
      percentage := percentage
      status := status }
  let stB : GuardState := { stA with history := stA.history ++ [stats] }
  if status = TokenStatus.red ∨ status = TokenStatus.critical then
    let alert := create_alert cfg agent_id percentage status
    (stats,
      { stB with
        alerts := stB.alerts ++ [alert]
        delivered_alerts := stB.delivered_alerts ++ [alert] })
  else (stats, stB)

/-- Result dictionary of `estimate_operation_impact`. -/
structure ImpactResult where
  estimated_tokens : ℤ
  current_tokens : ℤ
  projected_total : ℤ
  projected_percentage : ℚ
  current_percentage : ℚ
  will_breach_warning : Bool
  will_breach_threshold : Bool
  will_breach_critical : Bool
  recommendation : Str
deriving DecidableEq, Repr

/-- Method `_get_recommendation`. -/
def get_recommendation (cfg : GuardConfig) (projected_percentage : ℚ) : Str :=
  if projected_percentage ≥ CRITICAL_PERCENTAGE then
    lit "ABORT: Operation would exceed critical threshold. Reconstruct context first."
  else if projected_percentage ≥ cfg.threshold_percentage then
    lit "CAUTION: Operation would breach threshold. Consider reconstructing context first."
  else if projected_percentage ≥ cfg.warning_percentage then
    lit "WARNING: Operation would approach threshold. Monitor closely."
  else lit "PROCEED: Operation within safe limits."

/-- Method `estimate_operation_impact`: dry-run projection of a planned
operation.  The method only reads `self`, so the state is returned
unchanged. -/
def estimate_operation_impact (cfg : GuardConfig) (st : GuardState)
    (estimated_tokens : ℤ) : ImpactResult × GuardState :=
  let projected_total := st.cumulative_tokens + estimated_tokens
  let projected_percentage := (projected_total : ℚ) / (cfg.max_tokens : ℚ)
  ({ estimated_tokens := estimated_tokens
     current_tokens := st.cumulative_tokens
     projected_total := projected_total
     projected_percentage := projected_percentage
     current_percentage := current_percentage cfg st
     will_breach_warning := decide (projected_percentage ≥ cfg.warning_percentage)
     will_breach_threshold := decide (projected_percentage ≥ cfg.threshold_percentage)
     will_breach_critical := decide (projected_percentage ≥ CRITICAL_PERCENTAGE)
     recommendation := get_recommendation cfg projected_percentage }, st)

/-- Method `_estimate_tokens`: `len(text) // 4`. -/
def estimate_tokens (text : Str) : ℤ := ((text.length / 4 : ℕ) : ℤ)

/-- Method `_extract_key_facts`: keep stripped lines that look like bullet
or numbered items, strip the list markers, cap at 10. -/
def extract_key_facts (context : Str) : List Str :=
  let lines := splitOnChar '\n' context
  let facts := lines.filterMap fun l =>
    let line := stripWs l
    let isFact :=
      (lit "- ").isPrefixOf line || (lit "* ").isPrefixOf line ||
      (lit "• ").isPrefixOf line ||
      (match line with
       | c0 :: c1 :: _ :: _ => c0.isDigit && (c1 = '.' || c1 = ')')
       | _ => false)
    if isFact then some (lstripSet (lit "-*•0123456789.) ") line) else none
  facts.take 10

/-- Character class `\w` of the Python `re` module (ASCII fragment). -/
def isWordChar (c : Char) : Bool := c.isAlphanum || c = '_'

/-- Character class `[\w/]` used by the path pattern. -/
def isWordSlash (c : Char) : Bool := isWordChar c || c = '/'

/-- Match of the regex `https?://[^\s]+` anchored at the head of the
string; returns the match and the remaining suffix. -/
def matchUrlAt (s : Str) : Option (Str × Str) :=
  let matchBody : ℕ → Option (Str × Str) := fun n =>
    let body := (s.drop n).takeWhile (fun c => !isSpaceChar c)
    if body = [] then none
    else some (s.take n ++ body, s.drop (n + body.length))
  if (lit "https://").isPrefixOf s then matchBody (lit "https://").length
  else if (lit "http://").isPrefixOf s then matchBody (lit "http://").length
  else none

/-- Match of the regex `[\w/]+\.\w{2,4}` anchored at the head of the
string.  A shorter `[\w/]+` run is never followed by a literal dot, so the
backtracking search reduces to: take the maximal run, require a dot, then
greedily take two to four word characters. -/
def matchPathAt (s : Str) : Option (Str × Str) :=
  let run := s.takeWhile isWordSlash
  if run = [] then none
  else
    match s.drop run.length with
    | '.' :: rest2 =>
      let ext := rest2.takeWhile isWordChar
      if ext.length ≥ 2 then
        some (run ++ '.' :: ext.take 4, rest2.drop (min ext.length 4))
      else none
    | _ => none

/-- Fuel-driven scanner equivalent to `re.findall` for a matcher that
always consumes at least one character; with fuel at least the length of
the string it visits every position left to right and skips past each
match. -/
def findAllGo (matchAt : Str → Option (Str × Str)) : ℕ → Str → List Str
  | 0, _ => []
  | _, [] => []
  | fuel + 1, c :: rest =>
    match matchAt (c :: rest) with
    | some (m, after) => m :: findAllGo matchAt fuel after
    | none => findAllGo matchAt fuel rest

/-- Method `_extract_references`: URLs first (cap 5), then path-like
substrings (cap 5), overall cap 10. -/
def extract_references (context : Str) : List Str :=
  let urls := (findAllGo matchUrlAt context.length context).take 5
  let paths := (findAllGo matchPathAt context.length context).take 5
  (urls ++ paths).take 10

/-- Task-indicator keywords scanned by `_extract_active_task`. -/
def taskKeywords : List Str :=
  [lit "current task:", lit "working on:", lit "active:", lit "todo:"]

/-- Python `line.split(":", 1)[-1]`: everything after the first colon, or
the whole line when it has no colon. -/
def afterFirstColon (l : Str) : Str :=
  match l.dropWhile (fun c => c ≠ ':') with
  | [] => l
  | _ :: rest => rest

/-- Method `_extract_active_task`: first line whose lowercase form
contains a task keyword, taken after its first colon and stripped. -/
def extract_active_task (context : Str) : Option Str :=
  let lines := splitOnChar '\n' context
  (lines.find? fun line =>
      taskKeywords.any fun kw => containsSub kw (toLowerStr line)).map
    fun line => stripWs (afterFirstColon line)

/-- Method `_default_summarize`: contexts of at most 500 characters are
returned unchanged; longer contexts become head (250) + marker + tail
(250). -/
def default_summarize (context : Str) : Str :=
  if context.length ≤ 500 then context
  else
    context.take 250 ++ lit "\n...[truncated]...\n" ++
      context.drop (context.length - 250)

/-- Method `_build_compressed_context`: assemble the markdown sections and
join them with newlines.  The `if active_task:` guard is Python
truthiness, so the Active Task section is omitted both for `None` and for
the empty string `_extract_active_task` yields on a bare keyword line. -/
def build_compressed_context (summary : Str) (key_facts : List Str)
    (active_task : Option Str) (references : List Str) : Str :=
  let parts : List Str :=
    [lit "## Context Summary", summary, []] ++
    (match active_task with
     | some t => if t ≠ [] then [lit "## Active Task", t, []] else []
     | none => []) ++
    (if key_facts ≠ [] then
      (lit "## Key Facts" :: key_facts.map (fun f => lit "- " ++ f)) ++ [[]]
     else []) ++
    (if references ≠ [] then
      lit "## References" :: references.map (fun r => lit "- " ++ r)
     else [])
  List.intercalate ['\n'] parts

/-- Compressed artifact `reconstruct_context` builds from a context: the
summary (custom summarizer or `_default_summarize`), key facts, active
task and references assembled by `_build_compressed_context`. -/
def compressed_of (summarizer : Option (Str → Str)) (context : Str) : Str :=
  let summary :=
    match summarizer with
    | some f => f context
    | none => default_summarize context
  build_compressed_context summary (extract_key_facts context)
    (extract_active_task context) (extract_references context)

/-- Result of `reconstruct_context` (`EssentialContext` dataclass). -/
structure EssentialContext where
  summary : Str
  key_facts : List Str
  active_task : Option Str
  important_references : List Str
  token_count : ℤ
  original_token_count : ℤ
  compression_fraction : ℚ
deriving DecidableEq

/-- Method `reconstruct_context`: extract the essential components, build
the compressed artifact, and rebase the cumulative counter to its token
estimate.  (The dataclass field is called compression_ratio in the
source.) -/
def reconstruct_context (st : GuardState) (context : Str)
    (summarizer : Option (Str → Str)) : EssentialContext × GuardState :=
  let original_tokens := estimate_tokens context
  let key_facts := extract_key_facts context
  let important_refs := extract_references context
  let active_task := extract_active_task context
  let summary :=
    match summarizer with
    | some f => f context
    | none => default_summarize context
  let compressed_content :=
    build_compressed_context summary key_facts active_task important_refs
  let new_tokens := estimate_tokens compressed_content
  let compression_fraction : ℚ :=
    if original_tokens > 0 then
      1 - (new_tokens : ℚ) / (original_tokens : ℚ)
    else 0
  ({ summary := summary
     key_facts := key_facts
     active_task := active_task
     important_references := important_refs
     token_count := new_tokens
     original_token_count := original_tokens
     compression_fraction := compression_fraction },
   { st with cumulative_tokens := new_tokens })

/-- Method `reset`: zero the cumulative counter and clear the per-agent
map (history, alerts and snapshots are kept by the source). -/
def reset (st : GuardState) : GuardState :=
  { st with cumulative_tokens := 0, agent_tokens := [] }

/-- Folding `monitor_tokens` over a list of `(agent, operation, tokens)`
calls. -/
def runMonitors (cfg : GuardConfig) (st : GuardState)
    (calls : List (Str × Str × ℤ)) : GuardState :=
  calls.foldl (fun s c => (monitor_tokens cfg s c.1 c.2.1 c.2.2).2) st

end RA.Guard

namespace RA.Analyst

/-- Score for a reasoning chain (`ReasoningScore` dataclass in
analyst.py); the timestamp field is not modelled. -/
structure ReasoningScore where
  overall : ℚ
  passed : Bool
  kb_relevance : ℚ
  coherence : ℚ
  addresses_question : ℚ
  feedback : Str
  iteration : ℕ
deriving DecidableEq

/-- Context for analysis (`AnalysisContext` dataclass); the
`persona_context` field is never read by the scoring code and is not
modelled. -/
structure AnalysisContext where
  query : Str
  reasoning : Str
  knowledge_content : List Str
deriving DecidableEq

/-- Mutable state of an `AnalystAgent`: the per-session scoring history
and the iteration counter set by `execute`.  The shared memory and
context guard held by `BaseAgent` are tracked separately (see
`RA.Guard.GuardState`). -/
structure AnalystState where
  current_iteration : ℕ
  scoring_history : List ReasoningScore
deriving DecidableEq

/-- Class constant `PASS_THRESHOLD = 9.0`. -/
def PASS_THRESHOLD : ℚ := 9.0

/-- Class constant `WEIGHT_KB_RELEVANCE = 0.40`. -/
def WEIGHT_KB_RELEVANCE : ℚ := 0.40

/-- Class constant `WEIGHT_COHERENCE = 0.30`. -/
def WEIGHT_COHERENCE : ℚ := 0.30

/-- Class constant `WEIGHT_ADDRESSES_QUESTION = 0.30`. -/
def WEIGHT_ADDRESSES_QUESTION : ℚ := 0.30

/-- Citation indicator lexicon of `_score_kb_relevance`. -/
def citation_indicators : List Str :=
  [lit "according to", lit "based on", lit "from the", lit "course material",
   lit "professor", lit "research shows", lit "literature", lit "study",
   lit "framework", lit "model", lit "theory", lit "source"]

/-- Method `_score_kb_relevance`: base 5.0, up to +3.0 for the fraction of
long knowledge-base terms found in the reasoning, up to +2.0 for citation
indicators, clamped to [0, 10]; 0.0 for empty reasoning. -/
def score_kb_relevance (reasoning : Str) (knowledge_content : List Str) : ℚ :=
  if reasoning = [] then 0
  else
    let rl := toLowerStr reasoning
    let kbBonus : ℚ :=
      if knowledge_content ≠ [] then
        let kb_terms :=
          dedupFirst (knowledge_content.flatMap fun c =>
            (splitWs (toLowerStr c)).filter fun w => w.length > 4)
        let nMatches := kb_terms.countP fun t => containsSub t rl
        let term_ratio : ℚ :=
          min 1 ((nMatches : ℚ) / ((max kb_terms.length 1 : ℕ) : ℚ))
        term_ratio * 3
      else 0
    let citation_count := citation_indicators.countP fun ind => containsSub ind rl
    let score := 5 + kbBonus + min 2 ((citation_count : ℚ) * 0.5)
    min 10 (max 0 score)

/-- Structure indicator lexicon of `_score_coherence`, with the score
increment of each indicator. -/
def structure_indicators : List (Str × ℚ) :=
  [(lit "##", 1.0),
   (lit "1.", 0.5), (lit "2.", 0.5), (lit "3.", 0.5),
   (lit "-", 0.3), (lit "•", 0.3),
   (lit "first", 0.5), (lit "second", 0.5), (lit "third", 0.5),
   (lit "therefore", 0.5), (lit "thus", 0.5), (lit "hence", 0.5),
   (lit "because", 0.3), (lit "since", 0.3),
   (lit "in conclusion", 0.5), (lit "to summarize", 0.5)]

/-- Method `_score_coherence`: base 5.0, fixed increments for structural
markers, word-count adjustments, +1.0 for three or more paragraphs,
clamped to [0, 10]; 0.0 for empty reasoning. -/
def score_coherence (reasoning : Str) : ℚ :=
  if reasoning = [] then 0
  else
    let rl := toLowerStr reasoning
    let structBonus : ℚ :=
      (structure_indicators.map fun p =>
        if containsSub (toLowerStr p.1) rl then p.2 else 0).sum
    let word_count := (splitWs reasoning).length
    let lengthAdj : ℚ :=
      if word_count < 50 then -2 else if word_count ≥ 100 then 1 else 0
    let longAdj : ℚ := if word_count ≥ 200 then 0.5 else 0
    let paragraphs :=
      (splitOnSub (lit "\n\n") reasoning).filter fun p => stripWs p ≠ []
    let paraAdj : ℚ := if paragraphs.length ≥ 3 then 1 else 0
    min 10 (max 0 (5 + structBonus + lengthAdj + longAdj + paraAdj))

/-- Method `_score_addresses_question`: base 5.0, up to +3.0 for query
term coverage, +0.5 per direct-addressing indicator, +1.0 comprehensive
bonus, clamped to [0, 10]; 0.0 when reasoning or query is empty. -/
def score_addresses_question (query reasoning : Str) : ℚ :=
  if reasoning = [] ∨ query = [] then 0
  else
    let ql := toLowerStr query
    let rl := toLowerStr reasoning
    let query_terms := (splitWs ql).filter fun t => t.length > 3
    let term_matches := query_terms.countP fun t => containsSub t rl
    let matchBonus : ℚ :=
      if query_terms ≠ [] then
        ((term_matches : ℚ) / (query_terms.length : ℚ)) * 3
      else 0
    let direct_indicators : List Str :=
      [if ql.length > 20 then lit "about " ++ ql.take 20 else ql,
       lit "this means", lit "this refers to", lit "defined as",
       lit "the answer", lit "in response", lit "to address"]
    let directBonus : ℚ :=
      (direct_indicators.map fun ind =>
        if containsSub ind rl then (0.5 : ℚ) else 0).sum
    let compBonus : ℚ :=
      if reasoning.length > 500 ∧
          (term_matches : ℚ) ≥ (query_terms.length : ℚ) * 0.7 then 1
      else 0
    min 10 (max 0 (5 + matchBonus + directBonus + compBonus))

/-- Method `_generate_feedback`: deterministic feedback text assembled
from the band each component score falls into. -/
def generate_feedback (kb_score coherence_score addresses_score : ℚ)
    (query : Str) : Str :=
  let parts : List Str :=
    (if kb_score < 7 then
      [lit "GROUNDING: Strengthen connection to knowledge base materials. Include specific references to course concepts, frameworks, or readings."]
     else if kb_score < 9 then
      [lit "GROUNDING: Good foundation. Add more specific citations or examples from source materials."]
     else []) ++
    (if coherence_score < 7 then
      [lit "STRUCTURE: Improve logical flow. Use headers, numbered steps, or clear transitions. Ensure each point builds on the previous."]
     else if coherence_score < 9 then
      [lit "STRUCTURE: Good organization. Consider adding a summary or clearer conclusion."]
     else []) ++
    (if addresses_score < 7 then
      [lit "RELEVANCE: Response doesn\x27t fully address the question \x27" ++
        query.take 50 ++
        lit "...\x27. Directly answer what was asked before expanding."]
     else if addresses_score < 9 then
      [lit "RELEVANCE: Good coverage. Ensure all aspects of the question are addressed."]
     else [])
  if parts = [] then lit "Excellent reasoning quality. No improvements needed."
  else List.intercalate (lit " | ") parts

/-- Method `score_reasoning`: compute the three component scores, the
weighted overall score rounded to one decimal, the pass flag and the
feedback, and append the score record to the per-session history.  (The
`log_operation` call inside the method only feeds the shared context
guard and is accounted for in `RA.Guard`.) -/
def score_reasoning (st : AnalystState) (ctx : AnalysisContext) :
    ReasoningScore × AnalystState :=
  let kb_score := score_kb_relevance ctx.reasoning ctx.knowledge_content
  let coherence_score := score_coherence ctx.reasoning
  let addresses_score := score_addresses_question ctx.query ctx.reasoning
  let overall :=
    round1 (kb_score * WEIGHT_KB_RELEVANCE +
      coherence_score * WEIGHT_COHERENCE +
      addresses_score * WEIGHT_ADDRESSES_QUESTION)
  let feedback := generate_feedback kb_score coherence_score addresses_score ctx.query
  let score : ReasoningScore :=
    { overall := overall
      passed := decide (overall ≥ PASS_THRESHOLD)
      kb_relevance := kb_score
      coherence := coherence_score
      addresses_question := addresses_score
      feedback := feedback
      iteration := st.current_iteration }
  (score, { st with scoring_history := st.scoring_history ++ [score] })

end RA.Analyst

namespace RA.Reviewer

/-- One entry of the `issues` list built by `review_against_standards`
(a Python dict with keys type/severity/message; `type` is spelled `itype`
because `type` is reserved in Lean). -/
structure Issue where
  itype : Str
  severity : Str
  message : Str
deriving DecidableEq

/-- Result of content review (`ReviewResult` dataclass). -/
structure ReviewResult where
  overall_score : ℚ
  meets_standards : Bool
  issues : List Issue
  suggestions : List Str
  strengths : List Str
deriving DecidableEq

/-- Mutable state of a `ReviewerAgent`: only `_standards` is read by
`review_against_standards`; `_examples` and `_guidelines` feed other
methods and are not modelled. -/
structure ReviewerState where
  standards : List Str
deriving DecidableEq

/-- Marker phrases of critical issue 1 (empty-topic response). -/
def empty_topic_phrases : List Str :=
  [lit "topic is empty", lit "topic field is empty", lit "topic required",
   lit "need you to specify", lit "please specify what",
   lit "awaiting topic selection"]

/-- Marker phrases of critical issue 3 (no knowledge-base grounding). -/
def generic_phrases : List Str :=
  [lit "i don\x27t have access to", lit "i cannot access",
   lit "no specific information"]

/-- Python truthiness of an optional string argument. -/
def truthy : Option Str → Bool
  | some s => !s.isEmpty
  | none => false

/-- Method `_check_critical_issues`: the three auto-fail scans, in the
order the source appends them. -/
def check_critical_issues (content : Str) (workflow_name user_query : Option Str) :
    List Issue :=
  let cl := toLowerStr content
  let cond1 :=
    truthy user_query && empty_topic_phrases.any fun p => containsSub p cl
  let cond2 :=
    decide (workflow_name = some (lit "guide")) &&
    containsSub (lit "explained by:") cl && containsSub (lit "prof.") cl &&
    !containsSub (lit "guidance:") cl && !containsSub (lit "objective") cl
  let cond3 := generic_phrases.any fun p => containsSub p cl
  (if cond1 then
    [{ itype := lit "empty_topic_response", severity := lit "critical",
       message := lit "Output claims \x27topic is empty\x27 when user provided input" }]
   else []) ++
  (if cond2 then
    [{ itype := lit "wrong_workflow_format", severity := lit "critical",
       message := lit "Guide workflow used explain template format" }]
   else []) ++
  (if cond3 then
    [{ itype := lit "no_kb_grounding", severity := lit "critical",
       message := lit "Output not grounded in knowledge base materials" }]
   else [])

/-- Method `_validate_workflow_format`: workflow-specific structural
checks returning `(issues, strengths)`. -/
def validate_workflow_format (content : Str) (workflow_name : Str)
    (user_query : Option Str) : List Issue × List Str :=
  let cl := toLowerStr content
  let ql := toLowerStr (user_query.getD [])
  if workflow_name = lit "explain" then
    if containsSub (lit "##") content &&
        (containsSub (lit "definition") cl || containsSub (lit "concept") cl) then
      ([], [lit "Proper explain format with sections"])
    else ([], [])
  else if workflow_name = lit "guide" then
    let objective_triggers : List Str :=
      [lit "objective", lit "generate objective", lit "create objective",
       lit "thesis objective"]
    let is_objective_request := objective_triggers.any fun t => containsSub t ql
    let objPart : List Issue × List Str :=
      if is_objective_request then
        let fmtPart : List Issue × List Str :=
          if containsSub (lit "the objective of this research is to") cl then
            ([], [lit "Follows Prof. Cardasso objective format"])
          else
            ([{ itype := lit "missing_objective_format", severity := lit "major",
                message := lit "Objective should start with \x27The objective of this research is to...\x27" }],
             [])
        let ctxPart : List Issue × List Str :=
          if containsSub (lit "business context") cl then
            ([], [lit "Includes business context section"])
          else
            ([{ itype := lit "missing_business_context", severity := lit "major",
                message := lit "Objective missing Business Context section" }],
             [])
        (fmtPart.1 ++ ctxPart.1, fmtPart.2 ++ ctxPart.2)
      else ([], [])
    let genStrengths : List Str :=
      if containsSub (lit "reflection question") cl || containsSub (lit "framework") cl then
        [lit "Includes guiding elements"]
      else []
    (objPart.1, objPart.2 ++ genStrengths)
  else if workflow_name = lit "review" then
    if containsSub (lit "strength") cl && containsSub (lit "weakness") cl then
      ([], [lit "Proper review format with strengths/weaknesses"])
    else if containsSub (lit "suggestion") cl || containsSub (lit "improve") cl then
      ([], [lit "Provides improvement guidance"])
    else ([], [])
  else if workflow_name = lit "research" then
    if containsSub (lit "gap") cl || containsSub (lit "source") cl then
      ([], [lit "Identifies research gaps/sources"])
    else ([], [])
  else ([], [])

/-- Method `review_against_standards`: base score 7.0; −3.0 per critical
issue; −0.5 per workflow-format issue; −1.0 when shorter than 100 words;
structure and standards checks add only strengths/suggestions; final
score clamped to [0, 10]; `meets_standards` iff the score is at least 6.0
and no issue is critical.  The `persona` argument is never read by the
source body and is omitted; the state is returned unchanged (the
`log_operation` call feeds the shared context guard, see `RA.Guard`). -/
def review_against_standards (st : ReviewerState) (content : Str)
    (workflow_name user_query : Option Str) : ReviewResult × ReviewerState :=
  let critical_issues := check_critical_issues content workflow_name user_query
  let score1 : ℚ := 7 - 3 * critical_issues.length
  let workflowPart : List Issue × List Str :=
    match workflow_name with
    | some wn =>
      if wn = [] then ([], []) else validate_workflow_format content wn user_query
    | none => ([], [])
  let workflow_issues := workflowPart.1
  let workflow_strengths := workflowPart.2
  let score2 : ℚ :=
    if workflow_issues ≠ [] then score1 - workflow_issues.length * 0.5 else score1
  let word_count := (splitWs content).length
  let lengthIssues : List Issue :=
    if word_count < 100 then
      [{ itype := lit "length", severity := lit "major",
         message := lit "Content too short" }]
    else []
  let lengthStrengths : List Str :=
    if word_count < 100 then []
    else if word_count > 500 then [lit "Comprehensive content"] else []
  let score3 : ℚ := if word_count < 100 then score2 - 1 else score2
  let goodStructure :=
    containsSub (lit "##") content || countSub (lit "\n\n") content > 2
  let structStrengths : List Str :=
    if goodStructure then [lit "Good structure with sections"] else []
  let structSuggestions : List Str :=
    if goodStructure then [] else [lit "Consider adding section headers"]
  let standardsSuggestions : List Str :=
    st.standards.filterMap fun standard =>
      if !containsSub (toLowerStr standard) (toLowerStr content) then
        some (lit "Address: " ++ standard)
      else none
  let issues := critical_issues ++ workflow_issues ++ lengthIssues
  let suggestions := structSuggestions ++ standardsSuggestions
  let strengths := workflow_strengths ++ lengthStrengths ++ structStrengths
  let score : ℚ := max 0 (min 10 score3)
  let meets_standards :=
    decide (score ≥ 6) &&
      !(issues.any fun i => decide (i.severity = lit "critical"))
  ({ overall_score := score
     meets_standards := meets_standards
     issues := issues
     suggestions := suggestions
     strengths := strengths }, st)

end RA.Reviewer

namespace RA.Learner

/-- Stored pattern of successful reasoning (`ReasoningPattern` dataclass
in learner.py); the timestamp field is not modelled. -/
structure ReasoningPattern where
  query : Str
  reasoning_summary : Str
  score : ℚ
  key_terms : List Str
  strategies : List Str
deriving DecidableEq

/-- Entry written to shared memory by `store_pattern` (key
`pattern:<n>`, value dict with query/summary/score/strategies,
importance 8). -/
structure LearnerMemEntry where
  key : Str
  query : Str
  summary : Str
  score : ℚ
  strategies : List Str
  importance : ℕ
deriving DecidableEq

/-- Mutable state touched by `store_pattern`: the pattern list and the
shared-memory entries it appends (other `LearnerAgent` fields are not
read by this method). -/
structure LearnerState where
  reasoning_patterns : List ReasoningPattern
  memory_entries : List LearnerMemEntry
deriving DecidableEq

/-- Stopword set of `_extract_key_terms`. -/
def stopwords : List Str :=
  [lit "this", lit "that", lit "what", lit "when", lit "where", lit "which",
   lit "their", lit "there", lit "these", lit "those", lit "about",
   lit "would", lit "could", lit "should", lit "have", lit "been",
   lit "were", lit "will", lit "with", lit "from", lit "they", lit "them"]

/-- Punctuation set stripped from terms by `_extract_key_terms`. -/
def stripChars : List Char :=
  ['.', ',', '!', '?', ';', ':', '"', '\x27', '(', ')', '[', ']',
   '\x7b', '\x7d']

/-- Method `_extract_key_terms`: lowercase words longer than four
characters, minus stopwords, stripped of punctuation, deduplicated,
capped at 20. -/
def extract_key_terms (text : Str) : List Str :=
  let words := splitWs (toLowerStr text)
  let terms :=
    (words.filter fun w => w.length > 4 && !decide (w ∈ stopwords)).map
      (stripSet stripChars)
  (dedupFirst terms).take 20

/-- Method `_extract_strategies`: signal substrings in the reasoning and
the feedback mapped to strategy notes, deduplicated, capped at 5. -/
def extract_strategies (reasoning : Str) (feedback : Option Str) : List Str :=
  let rl := toLowerStr reasoning
  let base : List Str :=
    (if containsSub (lit "##") reasoning || containsSub (lit "###") reasoning then
      [lit "Use clear section headers"] else []) ++
    (if containsSub (lit "1.") reasoning || containsSub (lit "2.") reasoning then
      [lit "Use numbered steps or lists"] else []) ++
    (if containsSub (lit "framework") rl then
      [lit "Reference theoretical frameworks"] else []) ++
    (if containsSub (lit "example") rl || containsSub (lit "for instance") rl then
      [lit "Include concrete examples"] else []) ++
    (if containsSub (lit "according to") rl || containsSub (lit "research shows") rl then
      [lit "Cite sources and evidence"] else []) ++
    (if containsSub (lit "therefore") rl || containsSub (lit "thus") rl then
      [lit "Use clear logical transitions"] else []) ++
    (if containsSub (lit "in conclusion") rl || containsSub (lit "to summarize") rl then
      [lit "Include clear conclusion"] else [])
  let fbPart : List Str :=
    match feedback with
    | some f =>
      if f = [] then []
      else
        (if containsSub (lit "grounding") (toLowerStr f) then
          [lit "Strengthen knowledge base grounding"] else []) ++
        (if containsSub (lit "structure") (toLowerStr f) then
          [lit "Improve organizational structure"] else [])
    | none => []
  (dedupFirst (base ++ fbPart)).take 5

/-- First paragraph among the first three that is longer than 100
characters and is not a heading (`_summarize_reasoning` loop). -/
def firstContentPara : List Str → Option Str
  | [] => none
  | p :: rest =>
    if p.length > 100 && !(lit "#").isPrefixOf p then some p
    else firstContentPara rest

/-- Method `_summarize_reasoning`: first substantial paragraph, capped at
300 characters (with ellipsis) or 200 characters for the fallbacks. -/
def summarize_reasoning (reasoning : Str) : Str :=
  let paragraphs :=
    ((splitOnSub (lit "\n\n") reasoning).map stripWs).filter fun p => p ≠ []
  if paragraphs = [] then reasoning.take 200
  else
    match firstContentPara (paragraphs.take 3) with
    | some para =>
      if para.length > 300 then para.take 300 ++ lit "..." else para
    | none => (paragraphs.head?.getD []).take 200

/-- Method `store_pattern`: a no-op returning `None` for any score below
8.0; otherwise append an immutable `ReasoningPattern` and the
corresponding shared-memory entry.  (The `log_operation` call feeds the
shared context guard, see `RA.Guard`.) -/
def store_pattern (st : LearnerState) (query reasoning : Str) (score : ℚ)
    (feedback : Option Str) : Option ReasoningPattern × LearnerState :=
  if score < 8 then (none, st)
  else
    let key_terms := extract_key_terms query
    let strategies := extract_strategies reasoning feedback
    let summary := summarize_reasoning reasoning
    let pattern : ReasoningPattern :=
      { query := query
        reasoning_summary := summary
        score := score
        key_terms := key_terms
        strategies := strategies }
    let patterns := st.reasoning_patterns ++ [pattern]
    let entry : LearnerMemEntry :=
      { key := lit "pattern:" ++ Nat.toDigits 10 patterns.length
        query := query
        summary := summary
        score := score
        strategies := strategies
        importance := 8 }
    (some pattern,
     { reasoning_patterns := patterns
       memory_entries := st.memory_entries ++ [entry] })

end RA.Learner

namespace RA.Invoker

/-- Class constant `MAX_REASONING_ITERATIONS = 5`. -/
def MAX_REASONING_ITERATIONS : ℕ := 5

/-- Class constant `MIN_SCORE_THRESHOLD = 9.0`. -/
def MIN_SCORE_THRESHOLD : ℚ := 9.0

/-- Class constant `MAX_VALIDATION_ITERATIONS = 2`. -/
def MAX_VALIDATION_ITERATIONS : ℕ := 2

/-- Collaborator outcomes of one `WorkflowInvoker.invoke` run, abstracted
as functions of the iteration index: the analyst verdict and overall
score on the content generated at reasoning iteration `i`, and the
reviewer verdict (meets_standards and presence of a critical issue) on
the content validated at validation iteration `j`. -/
structure WorkflowOracle where
  reasoningPassed : ℕ → Bool
  reasoningOverall : ℕ → ℚ
  reviewMeets : ℕ → Bool
  reviewHasCritical : ℕ → Bool

/-- Iteration counter left behind by a Python loop of the shape
`for i in range(cap): counter = i + 1; ...; if passes(i): break`,
started at index `i` with `fuel` iterations remaining.  Each executed
loop body performs exactly one generate/score (resp. validate) cycle, so
the final counter also counts the executed cycles. -/
def loopCount (passes : ℕ → Bool) : ℕ → ℕ → ℕ
  | i, 0 => i
  | i, fuel + 1 => if passes i then i + 1 else loopCount passes (i + 1) fuel

/-- Reasoning-loop iteration count of `invoke` (STEP 3): generate, score,
break on `score.passed`, cap `MAX_REASONING_ITERATIONS`. -/
def reasoning_iterations (o : WorkflowOracle) : ℕ :=
  loopCount o.reasoningPassed 0 MAX_REASONING_ITERATIONS

/-- Validation verdict of validation iteration `j`: the source takes
`meets_standards` and then forces failure when any critical issue is
present. -/
def validation_passed_at (o : WorkflowOracle) (j : ℕ) : Bool :=
  o.reviewMeets j && !o.reviewHasCritical j

/-- Validation-loop iteration count of `invoke` (STEP 5): review, break
on the validation verdict, cap `MAX_VALIDATION_ITERATIONS`. -/
def validation_iterations (o : WorkflowOracle) : ℕ :=
  loopCount (validation_passed_at o) 0 MAX_VALIDATION_ITERATIONS

/-- Terminal value of `invoke` (`WorkflowResult` dataclass restricted to
the loop bookkeeping fields; the path/artifact/timing fields depend on
the filesystem and wall clock and are not modelled). -/
structure WorkflowResult where
  success : Bool
  reasoning_iterations : ℕ
  validation_iterations : ℕ
  final_score : ℚ

/-- Orchestration bookkeeping of `WorkflowInvoker.invoke` on the
non-exception path: run the bounded reasoning loop, then the bounded
validation loop, and report the iteration counters together with the last
analyst score. -/
def invoke (o : WorkflowOracle) : WorkflowResult :=
  let r := reasoning_iterations o
  let v := validation_iterations o
  { success := true
    reasoning_iterations := r
    validation_iterations := v
    final_score := o.reasoningOverall (r - 1) }

end RA.Invoker

namespace RA

/-- Guard configured as in spec Scenario D: `maxTokens=1000`,
`threshold=0.70` (other arguments at their defaults). -/
def cfg1000 : Guard.GuardConfig :=
  { max_tokens := 1000
    threshold_percentage := 0.70
    warning_percentage := 0.60
    reconstruction_target := 0.30 }

/-- Guard state after recording usage totaling 750 in one call. -/
def guard750 : Guard.GuardState :=
  (Guard.monitor_tokens cfg1000 Guard.initialState (lit "analyst")
    (lit "score_reasoning") 750).2

/-- Guard state after a further call recording 10 more tokens (the status
stays in the RED band). -/
def guard760 : Guard.GuardState :=
  (Guard.monitor_tokens cfg1000 guard750 (lit "analyst")
    (lit "score_reasoning") 10).2

/-- Context of 501 characters, just above the summarization cutoff. -/
def ctx501 : Str := List.replicate 501 'a'

/-- Clean 200-word content used as a concrete meets-standards input. -/
def okContent : Str := lit (String.join (List.replicate 100 "lorem ipsum "))

end RA

namespace RA

/-- Lower clamp bound for the analyst score shape `min 10 (max 0 x)`. -/
theorem clamp_lo (x : ℚ) : 0 ≤ min 10 (max 0 x) :=
  le_min (by norm_num) (le_max_left 0 x)

/-- Upper clamp bound for the analyst score shape `min 10 (max 0 x)`. -/
theorem clamp_hi (x : ℚ) : min 10 (max 0 x) ≤ 10 :=
  min_le_left _ _

/-- Upper bound for the reviewer clamp shape `max 0 (min 10 s)` when the
unclamped score is at most 7. -/
theorem review_clamp_le {s : ℚ} (h : s ≤ 7) : max 0 (min 10 s) ≤ 7 :=
  max_le (by norm_num) ((min_le_right 10 s).trans h)

/-- Rounding to one decimal preserves nonnegativity. -/
theorem round1_nonneg {q : ℚ} (h : 0 ≤ q) : 0 ≤ round1 q := by
  unfold round1
  have h1 : (0 : ℤ) ≤ round (q * 10) := by
    rw [round_eq]
    exact Int.le_floor.mpr (by push_cast; linarith)
  positivity

/-- Rounding to one decimal preserves the upper bound 10. -/
theorem round1_le_ten {q : ℚ} (h : q ≤ 10) : round1 q ≤ 10 := by
  unfold round1
  have h1 : round (q * 10) ≤ 100 := by
    rw [round_eq]
    have h2 : ((⌊q * 10 + 1 / 2⌋ : ℤ) : ℚ) ≤ q * 10 + 1 / 2 := Int.floor_le _
    have h3 : ((⌊q * 10 + 1 / 2⌋ : ℤ) : ℚ) < 101 := by linarith
    have h4 : ⌊q * 10 + 1 / 2⌋ < 101 := by exact_mod_cast h3
    omega
  have h5 : ((round (q * 10) : ℤ) : ℚ) ≤ 100 := by exact_mod_cast h1
  linarith

/-- The counter left by a bounded break-on-pass loop never exceeds the
start index plus the remaining fuel. -/
theorem loopCount_le (p : ℕ → Bool) :
    ∀ fuel i, Invoker.loopCount p i fuel ≤ i + fuel := by
  intro fuel
  induction fuel with
  | zero => intro i; simp [Invoker.loopCount]
  | succ n ih =>
    intro i
    simp only [Invoker.loopCount]
    split
    · omega
    · have := ih (i + 1); omega

/-- C1: every invocation runs at most `MAX_REASONING_ITERATIONS = 5`
generate/score cycles and at most `MAX_VALIDATION_ITERATIONS = 2`
validation cycles, whatever verdicts the analyst and reviewer return
(in particular when nothing ever passes), and the returned
`WorkflowResult` reports `reasoning_iterations ≤ 5` and
`validation_iterations ≤ 2`. -/
theorem invoke_iteration_bounds (o : Invoker.WorkflowOracle) :
    Invoker.reasoning_iterations o ≤ Invoker.MAX_REASONING_ITERATIONS ∧
    Invoker.validation_iterations o ≤ Invoker.MAX_VALIDATION_ITERATIONS ∧
    (Invoker.invoke o).reasoning_iterations ≤ 5 ∧
    (Invoker.invoke o).validation_iterations ≤ 2 := by
  have hr : Invoker.reasoning_iterations o ≤ 5 := by
    have := loopCount_le o.reasoningPassed Invoker.MAX_REASONING_ITERATIONS 0
    simpa [Invoker.reasoning_iterations] using this
  have hv : Invoker.validation_iterations o ≤ 2 := by
    have := loopCount_le (Invoker.validation_passed_at o)
      Invoker.MAX_VALIDATION_ITERATIONS 0
    simpa [Invoker.validation_iterations] using this
  exact ⟨hr, hv, hr, hv⟩

/-- Cumulative-counter effect of a single `monitor_tokens` call. -/
theorem monitor_tokens_cumulative (cfg : Guard.GuardConfig)
    (st : Guard.GuardState) (a op : Str) (t : ℤ) :
    (Guard.monitor_tokens cfg st a op t).2.cumulative_tokens =
      st.cumulative_tokens + t := by
  unfold Guard.monitor_tokens
  dsimp only
  split <;> rfl

/-- Cumulative counter after folding `monitor_tokens` over a call list,
from an arbitrary start state. -/
theorem runMonitors_cumulative (cfg : Guard.GuardConfig) :
    ∀ (calls : List (Str × Str × ℤ)) (st : Guard.GuardState),
      (Guard.runMonitors cfg st calls).cumulative_tokens =
        st.cumulative_tokens + (calls.map fun c => c.2.2).sum := by
  intro calls
  induction calls with
  | nil => intro st; simp [Guard.runMonitors]
  | cons c rest ih =>
    intro st
    simp only [Guard.runMonitors, List.foldl_cons, List.map_cons, List.sum_cons]
    have h1 := ih ((Guard.monitor_tokens cfg st c.1 c.2.1 c.2.2).2)
    simp only [Guard.runMonitors] at h1
    rw [h1, monitor_tokens_cumulative]
    ring

/-- C2: starting from a fresh guard, after a sequence of
`monitor_tokens` calls the cumulative counter equals the sum of the
recorded token amounts; each call with a non-negative amount can only
increase the counter (monotonically non-decreasing between resets); and
immediately after `reconstruct_context` the counter equals the
`len // 4` token estimate of the compressed context artifact built from
the context, independent of the prior state. -/
theorem contextguard_token_accounting :
    (∀ (cfg : Guard.GuardConfig) (calls : List (Str × Str × ℤ)),
      (Guard.runMonitors cfg Guard.initialState calls).cumulative_tokens =
        (calls.map fun c => c.2.2).sum) ∧
    (∀ (cfg : Guard.GuardConfig) (st : Guard.GuardState) (a op : Str) (t : ℤ),
      0 ≤ t →
      st.cumulative_tokens ≤
        (Guard.monitor_tokens cfg st a op t).2.cumulative_tokens) ∧
    (∀ (st : Guard.GuardState) (ctx : Str) (summarizer : Option (Str → Str)),
      (Guard.reconstruct_context st ctx summarizer).2.cumulative_tokens =
        Guard.estimate_tokens (Guard.compressed_of summarizer ctx)) := by
  refine ⟨?_, ?_, ?_⟩
  · intro cfg calls
    rw [runMonitors_cumulative]
    simp [Guard.initialState]
  · intro cfg st a op t ht
    rw [monitor_tokens_cumulative]
    linarith
  · intro st ctx summarizer
    rfl

/-- Component bound for `_score_kb_relevance`. -/
theorem score_kb_relevance_bounds (r : Str) (k : List Str) :
    0 ≤ Analyst.score_kb_relevance r k ∧ Analyst.score_kb_relevance r k ≤ 10 := by
  unfold Analyst.score_kb_relevance
  split
  · norm_num
  · exact ⟨clamp_lo _, clamp_hi _⟩

/-- Component bound for `_score_coherence`. -/
theorem score_coherence_bounds (r : Str) :
    0 ≤ Analyst.score_coherence r ∧ Analyst.score_coherence r ≤ 10 := by
  unfold Analyst.score_coherence
  split
  · norm_num
  · exact ⟨clamp_lo _, clamp_hi _⟩

/-- Component bound for `_score_addresses_question`. -/
theorem score_addresses_question_bounds (q r : Str) :
    0 ≤ Analyst.score_addresses_question q r ∧
      Analyst.score_addresses_question q r ≤ 10 := by
  unfold Analyst.score_addresses_question
  split
  · norm_num
  · exact ⟨clamp_lo _, clamp_hi _⟩

/-- C3: for every query, candidate text and reference document list, the
overall score produced by `score_reasoning` lies in [0, 10], and the
returned `passed` flag is true exactly when the overall score (already
rounded to one decimal) is at least 9.0. -/
theorem score_reasoning_bounds (st : Analyst.AnalystState)
    (ctx : Analyst.AnalysisContext) :
    0 ≤ ((Analyst.score_reasoning st ctx).1).overall ∧
    ((Analyst.score_reasoning st ctx).1).overall ≤ 10 ∧
    (((Analyst.score_reasoning st ctx).1).passed = true ↔
      ((Analyst.score_reasoning st ctx).1).overall ≥ 9) := by
  obtain ⟨hkb0, hkb1⟩ :=
    score_kb_relevance_bounds ctx.reasoning ctx.knowledge_content
  obtain ⟨hc0, hc1⟩ := score_coherence_bounds ctx.reasoning
  obtain ⟨ha0, ha1⟩ := score_addresses_question_bounds ctx.query ctx.reasoning
  simp only [Analyst.score_reasoning, Analyst.WEIGHT_KB_RELEVANCE,
    Analyst.WEIGHT_COHERENCE, Analyst.WEIGHT_ADDRESSES_QUESTION,
    Analyst.PASS_THRESHOLD]
  refine ⟨?_, ?_, ?_⟩
  · exact round1_nonneg (by nlinarith)
  · exact round1_le_ten (by nlinarith)
  · simp [ge_iff_le]
    norm_num

/-- C5: `estimate_operation_impact` is a pure dry-run projection: the
guard state (cumulative counter, per-agent map, history, alert list,
delivered alerts, snapshots) is returned unchanged, and
`will_breach_threshold` holds exactly when
`(cumulative + candidate) / maxTokens` reaches the configured threshold
percentage. -/
theorem estimate_operation_impact_pure (cfg : Guard.GuardConfig)
    (st : Guard.GuardState) (e : ℤ) :
    (Guard.estimate_operation_impact cfg st e).2 = st ∧
    ((Guard.estimate_operation_impact cfg st e).1.will_breach_threshold = true ↔
      cfg.threshold_percentage ≤
        ((st.cumulative_tokens + e : ℤ) : ℚ) / (cfg.max_tokens : ℚ)) := by
  constructor
  · rfl
  · simp [Guard.estimate_operation_impact, ge_iff_le]

/-- Counterexample to C4 as stated: with `maxTokens=1000`,
`threshold=0.70`, a call recording 750 lands in the RED band and fires
one alert, and a second call recording 10 stays in the RED band yet
fires a second alert, so alerts are not created only on band
transitions. -/
theorem monitor_alert_counterexample :
    (Guard.monitor_tokens cfg1000 Guard.initialState (lit "analyst")
        (lit "score_reasoning") 750).1.status = Guard.TokenStatus.red ∧
    (Guard.monitor_tokens cfg1000 guard750 (lit "analyst")
        (lit "score_reasoning") 10).1.status = Guard.TokenStatus.red ∧
    guard750.alerts.length = 1 ∧
    guard760.alerts.length = 2 := by
  refine ⟨?_, ?_, ?_, ?_⟩ <;>
    norm_num [guard750, guard760, cfg1000, Guard.monitor_tokens,
      Guard.current_status, Guard.current_percentage,
      Guard.CRITICAL_PERCENTAGE, Guard.initialState, Guard.create_alert,
      Guard.bumpAgent]

/-- C4 (amended): an Alert is created and delivered on every
`monitor_tokens` call whose resulting status is in the RED or CRITICAL
band — on each such call, not only on transitions into the band — and
with `maxTokens=1000`, `threshold=0.70`, a single call recording 750
fires exactly one alert. -/
theorem monitor_alert_every_call_in_band :
    (∀ (cfg : Guard.GuardConfig) (st : Guard.GuardState) (a op : Str) (t : ℤ),
      (Guard.monitor_tokens cfg st a op t).2.alerts.length =
        st.alerts.length +
          (if (Guard.monitor_tokens cfg st a op t).1.status = Guard.TokenStatus.red ∨
              (Guard.monitor_tokens cfg st a op t).1.status = Guard.TokenStatus.critical
           then 1 else 0) ∧
      (Guard.monitor_tokens cfg st a op t).2.delivered_alerts.length =
        st.delivered_alerts.length +
          (if (Guard.monitor_tokens cfg st a op t).1.status = Guard.TokenStatus.red ∨
              (Guard.monitor_tokens cfg st a op t).1.status = Guard.TokenStatus.critical
           then 1 else 0)) ∧
    guard750.alerts.length = 1 := by
  constructor
  · intro cfg st a op t
    unfold Guard.monitor_tokens
    dsimp only
    split
    · rename_i h
      simp [h]
    · rename_i h
      simp [h]
  · norm_num [guard750, cfg1000, Guard.monitor_tokens,
      Guard.current_status, Guard.current_percentage,
      Guard.CRITICAL_PERCENTAGE, Guard.initialState, Guard.create_alert,
      Guard.bumpAgent]

/-- Witness for C2 at a concrete call: recording 5 tokens from the fresh
state does not decrease the counter. -/
theorem contextguard_token_accounting_witness :
    (0 : ℤ) ≤ 5 ∧
    Guard.initialState.cumulative_tokens ≤
      (Guard.monitor_tokens Guard.defaultConfig Guard.initialState
        (lit "analyst") (lit "score_reasoning") 5).2.cumulative_tokens :=
  ⟨by norm_num,
   contextguard_token_accounting.2.1 Guard.defaultConfig Guard.initialState
     (lit "analyst") (lit "score_reasoning") 5 (by norm_num)⟩

set_option maxRecDepth 100000 in
/-- Counterexample to C6 as stated: on a 501-character context the
head+tail truncation produced by `_default_summarize` is 519 characters
long (250 head + 19-character marker + 250 tail), exceeding the claimed
500-character bound. -/
theorem default_summarize_exceeds_500cap :
    500 < (Guard.default_summarize ctx501).length ∧
    (Guard.default_summarize ctx501).length = 519 := by
  decide

/-- C6 (amended): `reconstruct_context` extracts at most 10 key facts and
at most 10 references; contexts of at most 500 characters are summarized
verbatim; longer contexts get a head+tail truncation of exactly 519
characters (250 head + 19-character marker + 250 tail), so the summary is
bounded at 519 characters, not 500. -/
theorem reconstruct_extraction_caps (ctx : Str) :
    (Guard.extract_key_facts ctx).length ≤ 10 ∧
    (Guard.extract_references ctx).length ≤ 10 ∧
    (ctx.length ≤ 500 → Guard.default_summarize ctx = ctx) ∧
    (500 < ctx.length → (Guard.default_summarize ctx).length = 519) := by
  refine ⟨?_, ?_, ?_, ?_⟩
  · simp only [Guard.extract_key_facts]
    simp [List.length_take]
  · simp only [Guard.extract_references]
    simp [List.length_take]
  · intro h
    simp [Guard.default_summarize, h]
  · intro h
    have h2 : ¬ ctx.length ≤ 500 := by omega
    have hl : (lit "\n...[truncated]...\n").length = 19 := rfl
    simp only [Guard.default_summarize, if_neg h2, List.length_append,
      List.length_take, List.length_drop, hl]
    omega

set_option maxRecDepth 100000 in
/-- Witness for C6 at concrete contexts: a short context is returned
verbatim, and the 501-character context is truncated to 519 characters. -/
theorem reconstruct_extraction_caps_witness :
    ((lit "short context").length ≤ 500 ∧
      Guard.default_summarize (lit "short context") = lit "short context") ∧
    (500 < ctx501.length ∧ (Guard.default_summarize ctx501).length = 519) :=
  ⟨⟨by decide, (reconstruct_extraction_caps (lit "short context")).2.2.1 (by decide)⟩,
   ⟨by decide, (reconstruct_extraction_caps ctx501).2.2.2 (by decide)⟩⟩

/-- C7: the scoring engine and the validation engine are deterministic
functions of their visible inputs: whatever the mutable agent state
(iteration counter, per-session history, configured standards), two
calls of `score_reasoning` on the same `(query, reasoning,
knowledge_content)` produce the same overall score, component scores and
feedback string, and two calls of `review_against_standards` on the same
`(content, workflow_name, user_query)` produce the same overall score,
verdict, issues and strengths. -/
theorem scoring_and_review_deterministic :
    (∀ (s1 s2 : Analyst.AnalystState) (ctx : Analyst.AnalysisContext),
      (Analyst.score_reasoning s1 ctx).1.overall =
        (Analyst.score_reasoning s2 ctx).1.overall ∧
      (Analyst.score_reasoning s1 ctx).1.kb_relevance =
        (Analyst.score_reasoning s2 ctx).1.kb_relevance ∧
      (Analyst.score_reasoning s1 ctx).1.coherence =
        (Analyst.score_reasoning s2 ctx).1.coherence ∧
      (Analyst.score_reasoning s1 ctx).1.addresses_question =
        (Analyst.score_reasoning s2 ctx).1.addresses_question ∧
      (Analyst.score_reasoning s1 ctx).1.feedback =
        (Analyst.score_reasoning s2 ctx).1.feedback) ∧
    (∀ (t1 t2 : Reviewer.ReviewerState) (c : Str) (wn uq : Option Str),
      (Reviewer.review_against_standards t1 c wn uq).1.overall_score =
        (Reviewer.review_against_standards t2 c wn uq).1.overall_score ∧
      (Reviewer.review_against_standards t1 c wn uq).1.meets_standards =
        (Reviewer.review_against_standards t2 c wn uq).1.meets_standards ∧
      (Reviewer.review_against_standards t1 c wn uq).1.issues =
        (Reviewer.review_against_standards t2 c wn uq).1.issues ∧
      (Reviewer.review_against_standards t1 c wn uq).1.strengths =
        (Reviewer.review_against_standards t2 c wn uq).1.strengths) :=
  ⟨fun _ _ _ => ⟨rfl, rfl, rfl, rfl, rfl⟩,
   fun _ _ _ _ _ => ⟨rfl, rfl, rfl, rfl⟩⟩

/-- C8: `store_pattern` is a no-op for any score strictly below 8.0: it
returns no pattern and leaves the pattern list and the shared-memory
entries unchanged. -/
theorem store_pattern_low_score_noop (st : Learner.LearnerState)
    (q r : Str) (score : ℚ) (fb : Option Str) (h : score < 8) :
    (Learner.store_pattern st q r score fb).1 = none ∧
    (Learner.store_pattern st q r score fb).2 = st := by
  unfold Learner.store_pattern
  rw [if_pos h]
  exact ⟨rfl, rfl⟩

/-- Witness for C8 at a concrete call with score 7.9. -/
theorem store_pattern_low_score_noop_witness :
    (7.9 : ℚ) < 8 ∧
    (Learner.store_pattern ⟨[], []⟩ (lit "q") (lit "reasoning") 7.9 none).1 =
      none ∧
    (Learner.store_pattern ⟨[], []⟩ (lit "q") (lit "reasoning") 7.9 none).2 =
      (⟨[], []⟩ : Learner.LearnerState) :=
  ⟨by norm_num,
   store_pattern_low_score_noop ⟨[], []⟩ (lit "q") (lit "reasoning") 7.9 none
     (by norm_num)⟩

/-- The no-KB-grounding phrase forces a critical issue into
`_check_critical_issues`. -/
theorem crit_issue_mem_of_phrase (content : Str) (wn uq : Option Str)
    (h : containsSub (lit "i don\x27t have access to") (toLowerStr content) = true) :
    ({ itype := lit "no_kb_grounding", severity := lit "critical",
       message := lit "Output not grounded in knowledge base materials" } :
        Reviewer.Issue) ∈ Reviewer.check_critical_issues content wn uq := by
  have hc3 : (Reviewer.generic_phrases.any fun p =>
      containsSub p (toLowerStr content)) = true :=
    List.any_eq_true.mpr
      ⟨lit "i don\x27t have access to", by simp [Reviewer.generic_phrases], h⟩
  simp [Reviewer.check_critical_issues, hc3]

/-- C9: content containing the no-access phrase (case-insensitively)
always yields a review with a critical-severity issue and
`meets_standards = false`, for any workflow name and non-empty user
query; and in general `meets_standards` holds only when the final score
is at least 6.0 and no issue has critical severity. -/
theorem review_no_access_and_standards_gate :
    (∀ (st : Reviewer.ReviewerState) (content : Str) (wn : Option Str)
        (uq : Str), uq ≠ [] →
      containsSub (lit "i don\x27t have access to") (toLowerStr content) = true →
      (∃ i ∈ (Reviewer.review_against_standards st content wn (some uq)).1.issues,
        i.severity = lit "critical") ∧
      (Reviewer.review_against_standards st content wn (some uq)).1.meets_standards
        = false) ∧
    (∀ (st : Reviewer.ReviewerState) (content : Str) (wn uq : Option Str),
      (Reviewer.review_against_standards st content wn uq).1.meets_standards
          = true →
      6 ≤ (Reviewer.review_against_standards st content wn uq).1.overall_score ∧
      ∀ i ∈ (Reviewer.review_against_standards st content wn uq).1.issues,
        i.severity ≠ lit "critical") := by
  constructor
  · intro st content wn uq _ h
    have hmem := crit_issue_mem_of_phrase content wn (some uq) h
    have hmem2 :
        ({ itype := lit "no_kb_grounding", severity := lit "critical",
           message := lit "Output not grounded in knowledge base materials" } :
            Reviewer.Issue) ∈
          (Reviewer.review_against_standards st content wn (some uq)).1.issues := by
      simp only [Reviewer.review_against_standards]
      exact List.mem_append_left _ (List.mem_append_left _ hmem)
    constructor
    · exact ⟨_, hmem2, rfl⟩
    · have hany :
          ((Reviewer.review_against_standards st content wn (some uq)).1.issues.any
            fun i => decide (i.severity = lit "critical")) = true :=
        List.any_eq_true.mpr ⟨_, hmem2, by simp⟩
      simp only [Reviewer.review_against_standards] at hany ⊢
      rw [hany]
      simp
  · intro st content wn uq h
    simp only [Reviewer.review_against_standards] at h ⊢
    rw [Bool.and_eq_true] at h
    obtain ⟨h6, hnc⟩ := h
    constructor
    · exact of_decide_eq_true h6
    · intro i hi hcontra
      rw [Bool.not_eq_true'] at hnc
      have := List.any_eq_false.mp hnc i hi
      simp [hcontra] at this

set_option maxRecDepth 400000 in
/-- Witness for C9: a concrete no-access content yields a critical issue
and a failing verdict, and a concrete clean content that meets standards
has score at least 6 and no critical issue. -/
theorem review_no_access_and_standards_gate_witness :
    ((lit "q" ≠ ([] : Str)) ∧
      (∃ i ∈ (Reviewer.review_against_standards ⟨[]⟩
          (lit "I don\x27t have access to that material.") (some (lit "explain"))
          (some (lit "q"))).1.issues, i.severity = lit "critical") ∧
      (Reviewer.review_against_standards ⟨[]⟩
          (lit "I don\x27t have access to that material.") (some (lit "explain"))
          (some (lit "q"))).1.meets_standards = false) ∧
    (6 ≤ (Reviewer.review_against_standards ⟨[]⟩ okContent none none).1.overall_score ∧
      ∀ i ∈ (Reviewer.review_against_standards ⟨[]⟩ okContent none none).1.issues,
        i.severity ≠ lit "critical") := by
  refine ⟨⟨by decide, ?_, ?_⟩, ?_⟩
  · exact (review_no_access_and_standards_gate.1 ⟨[]⟩
      (lit "I don\x27t have access to that material.") (some (lit "explain"))
      (lit "q") (by decide) (by decide)).1
  · exact (review_no_access_and_standards_gate.1 ⟨[]⟩
      (lit "I don\x27t have access to that material.") (some (lit "explain"))
      (lit "q") (by decide) (by decide)).2
  · refine review_no_access_and_standards_gate.2 ⟨[]⟩ okContent none none ?_
    have hcrit : Reviewer.check_critical_issues okContent none none = [] := by
      decide
    have hwc : ¬ ((splitWs okContent).length < 100) := by decide
    simp only [Reviewer.review_against_standards, hcrit, hwc]
    norm_num [min_def, max_def]

/-- C10: the validator starts from a base score of 7.0 and every
adjustment is a subtraction, so `review_against_standards` can never
return an overall score above 7.0. -/
theorem review_overall_score_le_base (st : Reviewer.ReviewerState)
    (content : Str) (wn uq : Option Str) :
    (Reviewer.review_against_standards st content wn uq).1.overall_score ≤ 7 := by
  simp only [Reviewer.review_against_standards]
  apply review_clamp_le
  split_ifs
  all_goals
    repeat refine (sub_le_self _ (by positivity)).trans ?_
  all_goals norm_num

end RA
